import Mathlib

/-!
Verification of the settings / entity-cache synchronization pattern of the
Kaas front-end. Definitions are shallow embeddings of the TypeScript source
(src/pages/Settings.tsx, src/components/forms/RemoteModelsSelector.tsx,
src/components/ModelFormDialog.tsx and the constants module); external
collaborators (the JSON serializer, the persistence gateway) appear as
function parameters or as `Except` results.
-/

namespace Kaas

/-! ## Constants (src constants module) -/

/-- Setting key for the models context length (constants module,
`SETTING_MODELS_CONTENT_LENGTH = 'models:context_length'`). -/
def SETTING_MODELS_CONTEXT_LENGTH : String := "models:context_length"

/-- Setting key for the models max tokens (constants module). -/
def SETTING_MODELS_MAX_TOKENS : String := "models:max_tokens"

/-- Modelled from the spec: the network-proxy setting key imported by
Settings.tsx is not present in the constants file under src; the spec lists
`proxy-configuration` among the enumerated setting keys. The concrete string
is irrelevant to every claim below. -/
def SETTING_NETWORK_PROXY : String := "network:proxy"

/-- Provider tag string for OpenAI (constants module). -/
def PROVIDER_OPENAI : String := "OpenAI"

/-- Provider tag string for Azure (constants module). -/
def PROVIDER_AZURE : String := "Azure"

/-! ## Data model -/

/-- A prompt entity (lib/types `Prompt`): id assigned by the gateway,
display alias, template content, creation timestamp. Field `alias` of the
source is `aliasName` here because `alias` is a reserved word in Lean. -/
structure Prompt where
  id : String
  aliasName : String
  content : String
  createdAt : String
deriving DecidableEq, Repr

/-- Payload of a prompt creation (lib/types `NewPrompt`): a prompt without
an id yet. -/
structure NewPrompt where
  aliasName : String
  content : String
deriving DecidableEq, Repr

/-- An error returned by the persistence gateway; only its `message` is
consumed by the handlers. -/
structure GatewayError where
  message : String
deriving DecidableEq, Repr

/-- Payload of `upsertSetting(key, value)`. -/
structure SettingPayload where
  key : String
  value : String
deriving DecidableEq, Repr

/-- UI signals emitted by the mutation handlers: diagnostic log entries and
toast notifications. -/
inductive Signal where
  | logError (msg : String)
  | toastError (msg : String)
  | toastSuccess (msg : String)
deriving DecidableEq, Repr

/-- The react-query cached prompt collection under `LIST_PROMPTS_KEY`:
`none` models an absent cache entry (`old` being `undefined`). -/
abbrev PromptCache := Option (List Prompt)

/-- Ids held in the cached prompt collection (empty when absent). -/
def cacheIds (c : PromptCache) : List String :=
  (c.getD []).map Prompt.id

/-! ## Prompt cache patches (PromptGrid, RemoteModelsSelector.tsx part 2)

The three `queryClient.setQueryData` updaters of `PromptGrid`. -/

/-- Create patch: `(old) => old ? [...old, prompt] : [prompt]`. -/
def createPromptPatch (p : Prompt) (old : PromptCache) : List Prompt :=
  match old with
  | some l => l ++ [p]
  | none => [p]

/-- Update patch body: `draft.findIndex((q) => q.id === prompt.id)` followed
by `draft[index] = prompt` when the index is not `-1`, i.e. the first entry
whose id equals `p.id` is replaced by `p` and the list is otherwise kept. -/
def updatePromptList (p : Prompt) : List Prompt → List Prompt
  | [] => []
  | q :: rest => if q.id = p.id then p :: rest else q :: updatePromptList p rest

/-- Update patch: `produce(old, ...)`; an absent cache stays absent. -/
def updatePromptPatch (p : Prompt) : PromptCache → PromptCache
  | none => none
  | some l => some (updatePromptList p l)

/-- Delete patch: `produce(old, (draft) => draft?.filter((q) => q.id !== prompt.id))`. -/
def deletePromptPatch (p : Prompt) : PromptCache → PromptCache
  | none => none
  | some l => some (l.filter (fun q => q.id ≠ p.id))

/-! ## Mutation handlers (success / error callbacks)

Each react-query mutation is modelled as a step function from the cache and
the gateway outcome to the new cache and the emitted signals, exactly the
code of the `onSuccess` / `onError` callbacks. `JSON.stringify` is an
external collaborator and appears as the `stringify` parameter. -/

/-- `usePromptCreator` callbacks in `PromptGrid`: on success append the
returned prompt to the cache and toast; on failure log
`Failed to create prompt: data = ..., error = ...`, toast the error and
leave the cache alone. -/
def promptCreatorStep (stringify : NewPrompt → String) (successMsg : String)
    (cache : PromptCache) (vars : NewPrompt)
    (result : Except GatewayError Prompt) : PromptCache × List Signal :=
  match result with
  | .ok p => (some (createPromptPatch p cache), [Signal.toastSuccess successMsg])
  | .error e =>
      (cache,
       [Signal.logError ("Failed to create prompt: data = " ++ stringify vars
          ++ ", error = " ++ e.message),
        Signal.toastError ("Failed to create prompt: " ++ e.message)])

/-- `usePromptUpdater` callbacks in `PromptGrid`. -/
def promptUpdaterStep (stringify : Prompt → String) (successMsg : String)
    (cache : PromptCache) (vars : Prompt)
    (result : Except GatewayError Prompt) : PromptCache × List Signal :=
  match result with
  | .ok p => (updatePromptPatch p cache, [Signal.toastSuccess successMsg])
  | .error e =>
      (cache,
       [Signal.logError ("Failed to update prompt: data = " ++ stringify vars
          ++ ", error = " ++ e.message),
        Signal.toastError ("Failed to update prompt: " ++ e.message)])

/-- `usePromptDeleter` callbacks in `PromptGrid`; the deleter is invoked
with the prompt id and the success payload carries the id used by the
filter patch. -/
def promptDeleterStep (stringify : String → String) (successMsg : String)
    (cache : PromptCache) (vars : String)
    (result : Except GatewayError Prompt) : PromptCache × List Signal :=
  match result with
  | .ok p => (deletePromptPatch p cache, [Signal.toastSuccess successMsg])
  | .error e =>
      (cache,
       [Signal.logError ("Failed to delete prompt: data = " ++ stringify vars
          ++ ", error = " ++ e.message),
        Signal.toastError ("Failed to delete prompt: " ++ e.message)])

/-- `useUpsertSetting` in Settings.tsx: on success run the caller supplied
callback (which updates the app settings store) and toast `successMsg`; on
error log `Upserting settings failed: key = ..., value = ..., <message>`
and toast `failureMsg`, leaving every cache untouched. The settings store
is the abstract cache `σ` and the callback is `applySuccess`. -/
def upsertSettingStep {σ : Type} (successMsg failureMsg : String)
    (applySuccess : σ → σ) (cache : σ) (vars : SettingPayload)
    (result : Except GatewayError Unit) : σ × List Signal :=
  match result with
  | .ok _ => (applySuccess cache, [Signal.toastSuccess successMsg])
  | .error e =>
      (cache,
       [Signal.logError ("Upserting settings failed: key = " ++ vars.key
          ++ ", value = " ++ vars.value ++ ", " ++ e.message),
        Signal.toastError failureMsg])

/-! ## Numeric settings validation (Settings.tsx, SettingContextLength and
SettingMaxTokens)

Both save handlers run
`z.coerce.number().int().min(lo).max(65535).safeParse(raw)`. The zod chain
first coerces the raw input with the JavaScript `Number` builtin (an
external collaborator, so the embedding starts from the coerced value: a
rational, or `none` when coercion yields NaN), then requires an integer
within the bounds. -/

/-- Outcome of `safeParse` for the chain
`z.coerce.number().int().min(lo).max(hi)` applied to an already coerced
input: `some n` exactly when the coerced value is an integer between `lo`
and `hi`. -/
def zodCoerceIntMinMax (lo hi : ℤ) (coerced : Option ℚ) : Option ℤ :=
  match coerced with
  | none => none
  | some q => if q.den = 1 ∧ lo ≤ q.num ∧ q.num ≤ hi then some q.num else none

/-- Result of a save click on a numeric setting: the field error set (if
any) and the payload forwarded to the upsert mutation (if any). -/
structure SaveOutcome where
  fieldError : Option String
  upsert : Option SettingPayload
deriving DecidableEq, Repr

/-- `SettingContextLength.onSaveClick`: validate in `[0, 65535]`; on failure
set the field error, on success call the updater with
`{key: SETTING_MODELS_CONTEXT_LENGTH, value: validation.data.toString()}`. -/
def contextLengthOnSaveClick (errMsg : String) (coerced : Option ℚ) : SaveOutcome :=
  match zodCoerceIntMinMax 0 65535 coerced with
  | none => { fieldError := some errMsg, upsert := none }
  | some n =>
      { fieldError := none
        upsert := some { key := SETTING_MODELS_CONTEXT_LENGTH, value := toString n } }

/-- `SettingMaxTokens.onSaveClick`: validate in `[1, 65535]`; on failure set
the field error, on success call the updater with the max-tokens key. -/
def maxTokensOnSaveClick (errMsg : String) (coerced : Option ℚ) : SaveOutcome :=
  match zodCoerceIntMinMax 1 65535 coerced with
  | none => { fieldError := some errMsg, upsert := none }
  | some n =>
      { fieldError := none
        upsert := some { key := SETTING_MODELS_MAX_TOKENS, value := toString n } }

/-! ## Remote model list (RemoteModelsSelector.tsx part 1) -/

/-- A remote model entry returned by `listRemoteModels`: id and `created`
timestamp. -/
structure RemoteModel where
  id : String
  created : Int
deriving DecidableEq, Repr

/-- The query `select` option: `(raw) => raw.sort((a, b) => b.created - a.created)`.
The JavaScript comparator keeps `a` before `b` exactly when
`b.created - a.created ≤ 0`; `Array.prototype.sort` is stable, as is
`List.mergeSort`. -/
def selectRemoteModels (raw : List RemoteModel) : List RemoteModel :=
  raw.mergeSort (fun a b => decide (b.created ≤ a.created))

/-- The default-selection effect (lines 107 to 114): when data is present
and non-empty and the form field `model` is unset (`undefined`) or the
empty string, set it to `data[0].id`; otherwise leave the field alone. The
returned value is the field after the effect. -/
def defaultSelectionEffect (data : Option (List RemoteModel))
    (fieldValue : Option String) : Option String :=
  match data with
  | some (m :: _) => if fieldValue.getD "" = "" then some m.id else fieldValue
  | some [] => fieldValue
  | none => fieldValue

/-- `onClick` of the load-models button (lines 45 to 54): with an empty
`apiKey` form value, set a field error on `apiKey` and leave the query
disabled state alone; otherwise `setEnabled(true)`. -/
structure ClickOutcome where
  enabled : Bool
  apiKeyError : Option String
deriving DecidableEq, Repr

/-- The load-models click handler; `enabled` is the `useState` value gating
the `listRemoteModels` query, `apiKeyError` the error set by this click. -/
def loadModelsOnClick (emptyKeyMsg : String) (formApiKey : String)
    (enabled : Bool) : ClickOutcome :=
  if formApiKey.length = 0 then
    { enabled := enabled, apiKeyError := some emptyKeyMsg }
  else
    { enabled := true, apiKeyError := none }

/-! ## Remote model cache invalidation machine (C5) -/

/-- The credentials pair the remote-model query depends on. -/
structure Creds where
  provider : String
  apiKey : String
deriving DecidableEq, Repr

/-- A cached remote-model list together with the credentials in force when
the fetch completed (the credentials are ghost state used to state
freshness; the real cache stores only the list). -/
structure CachedModels where
  fetchedUnder : Creds
  models : List RemoteModel
deriving DecidableEq, Repr

/-- State of the selector component plus the query cache entry under
`LIST_REMOTE_MODELS_KEY`. -/
structure SelectorState where
  creds : Creds
  cached : Option CachedModels
deriving DecidableEq, Repr

/-- Events observed by the selector: a credentials (prop) change, or a
completed fetch storing its result. -/
inductive SelectorEvent where
  | changeCreds (c : Creds)
  | fetchComplete (l : List RemoteModel)
deriving DecidableEq, Repr

/-- One event step. A `changeCreds` event with genuinely different
credentials re-runs the invalidation effect of lines 100 to 105
(`queryClient.removeQueries({queryKey: LIST_REMOTE_MODELS_KEY, exact: true})`,
whose dependency array is `[provider, apiKey, queryClient]`), clearing the
cache entry before any further fetch; an unchanged dependency array does
not re-run the effect. Modelled from the spec: the query hook
(`useListRemoteModelsQuery`, lib/hooks, not under src) issues its fetch
with the current `provider` and `apiKey` props, so a completing fetch
stores a list obtained under the current credentials; render, effects and
event handling are a single atomic step per the single-threaded
run-to-completion model of spec section 5. -/
def selectorStep (s : SelectorState) : SelectorEvent → SelectorState
  | .changeCreds c =>
      if c = s.creds then s else { creds := c, cached := none }
  | .fetchComplete l =>
      { s with cached := some { fetchedUnder := s.creds, models := l } }

/-- Run a list of selector events from a state. -/
def selectorRun (s : SelectorState) (evs : List SelectorEvent) : SelectorState :=
  evs.foldl selectorStep s

/-- Freshness: whatever the cache holds was fetched under the current
credentials. -/
def credsConsistent (s : SelectorState) : Prop :=
  ∀ cl, s.cached = some cl → cl.fetchedUnder = s.creds

/-! ## Proxy setting (Settings.tsx, SettingProxy) -/

/-- The proxy setting form values (lib/types `ProxySetting`; field names as
used by SettingProxy: `on`, `server`, `http`, `https`, `username`,
`password`). -/
structure ProxySetting where
  «on» : Bool
  server : String
  http : Bool
  https : Bool
  username : String
  password : String
deriving DecidableEq, Repr

/-- The auto-save effect of SettingProxy (lines 404 to 413): when the saved
setting has `on = true` and the watched form switch is off, immediately
upsert `SETTING_NETWORK_PROXY` with `JSON.stringify(form.getValues())`;
otherwise do nothing. `savedOn` is `proxySetting.on`, `formValues` the
current form values (so `formValues.on` is the watched `useProxy`), and
`stringify` the external JSON serializer. -/
def proxyAutoSaveEffect (stringify : ProxySetting → String) (savedOn : Bool)
    (formValues : ProxySetting) : Option SettingPayload :=
  if savedOn ∧ formValues.«on» = false then
    some { key := SETTING_NETWORK_PROXY, value := stringify formValues }
  else none

/-! ## Provider-specific model forms (ModelFormDialog.tsx) -/

/-- The two supported provider kinds (`SUPPORTED_PROVIDERS`). -/
inductive Provider where
  | openAI
  | azure
deriving DecidableEq, Repr

/-- The fields a new-model configuration can carry beyond its provider tag. -/
inductive ModelField where
  | apiKey
  | model
  | endpoint
  | apiVersion
  | deploymentId
deriving DecidableEq, Repr

/-- A new model configuration as a tagged variant (lib/types `NewModel`,
`NewOpenAIModel`, `NewAzureModel`). -/
inductive NewModel where
  | openAI (apiKey model : String)
  | azure (apiKey endpoint apiVersion deploymentId : String)
deriving DecidableEq, Repr

/-- Provider tag of a new model value. -/
def newModelProvider : NewModel → Provider
  | .openAI _ _ => .openAI
  | .azure _ _ _ _ => .azure

/-- Fields carried by a new model value. -/
def newModelFields : NewModel → List ModelField
  | .openAI _ _ => [.apiKey, .model]
  | .azure _ _ _ _ => [.apiKey, .endpoint, .apiVersion, .deploymentId]

/-- The required-field set for each provider tag (spec section 3: one
variant requires apiKey and modelName, the other apiKey, endpoint,
apiVersion and deploymentId; matching `NewModelFormDialog.renderForm`). -/
def requiredFields : Provider → List ModelField
  | .openAI => [.apiKey, .model]
  | .azure => [.apiKey, .endpoint, .apiVersion, .deploymentId]

/-- `NewModelFormDialog.renderForm`: the dialog state `provider` selects the
form; `case PROVIDER_OPENAI` yields the OpenAI form seeded with
`{provider, apiKey: '', model: ''}`, while the `default` branch yields the
Azure form seeded with `{provider, apiKey: '', endpoint: '', apiVersion: '',
deploymentId: ''}`. The returned value is the initial form model. -/
def renderFormInitialModel (provider : Option String) : NewModel :=
  if provider = some PROVIDER_OPENAI then NewModel.openAI "" ""
  else NewModel.azure "" "" "" ""

/-- A raw configuration submitted to validation: a declared provider tag and
a list of present fields with their values. -/
structure RawModelConfig where
  provider : Provider
  fields : List (ModelField × String)
deriving DecidableEq, Repr

/-- First value present for a field, if any. -/
def getField (cfg : RawModelConfig) (f : ModelField) : Option String :=
  (cfg.fields.find? (fun kv => kv.1 = f)).map (fun kv => kv.2)

/-- Modelled from the spec: the provider-specific form schemas live in
`ModelForm` and `lib/schemas`, which are not under src; spec section 4.3
states that provider-specific model schemas require exactly the field set
matching the declared provider tag, and that extra or missing fields are a
validation failure rather than being dropped or defaulted. Validation
accepts a configuration only when every present field belongs to the
declared provider's required set and every required field is present, and
then builds the tagged variant from the field values. -/
def validateModelConfig (cfg : RawModelConfig) : Option NewModel :=
  if cfg.fields.all (fun kv => (requiredFields cfg.provider).contains kv.1) then
    match cfg.provider with
    | .openAI =>
        match getField cfg .apiKey, getField cfg .model with
        | some k, some m => some (.openAI k m)
        | _, _ => none
    | .azure =>
        match getField cfg .apiKey, getField cfg .endpoint,
              getField cfg .apiVersion, getField cfg .deploymentId with
        | some k, some e, some v, some d => some (.azure k e v d)
        | _, _, _, _ => none
  else none

/-! ## Stale responses to torn-down views (C9) -/

/-- State of a view with its prompt cache, its settings store (abstract, of
type `σ`) and the signals emitted so far; `active` records whether the
originating view still exists. -/
structure ViewState (σ : Type) where
  active : Bool
  cache : PromptCache
  settings : σ
  signals : List Signal

/-- Events: teardown of the view, or a gateway response to one of the four
mutations whose handlers this repository defines: create, update and
delete prompt (`PromptGrid`) and upsert setting (`useUpsertSetting`), each
carrying the submitted payload `vars` and the gateway outcome `r`. -/
inductive ViewEvent where
  | teardown
  | createResponse (vars : NewPrompt) (r : Except GatewayError Prompt)
  | updateResponse (vars : Prompt) (r : Except GatewayError Prompt)
  | deleteResponse (vars : String) (r : Except GatewayError Prompt)
  | settingResponse (vars : SettingPayload) (r : Except GatewayError Unit)
deriving Repr

/-- The fixed handler parameters of a view: the external JSON serializers,
the toast messages and the settings-store success callback, as passed to
`usePromptCreator` / `usePromptUpdater` / `usePromptDeleter` and
`useUpsertSetting`. -/
structure ViewEnv (σ : Type) where
  stringifyNew : NewPrompt → String
  stringifyPrompt : Prompt → String
  stringifyId : String → String
  createMsg : String
  updateMsg : String
  deleteMsg : String
  settingSuccessMsg : String
  settingFailureMsg : String
  applySetting : σ → σ

/-- Modelled from the spec: the check that the originating context is still
active is performed by the query layer wrapping the handlers (lib/hooks and
the query library, not under src); spec section 5 states that a response
handler runs only when the originating context is still active, and that
stale responses to torn-down views are dropped silently. An active view
runs the corresponding handler from this repository
(`promptCreatorStep`, `promptUpdaterStep`, `promptDeleterStep`,
`upsertSettingStep`); an inactive one drops the response, emitting
nothing. -/
def viewStep {σ : Type} (env : ViewEnv σ) (s : ViewState σ) :
    ViewEvent → ViewState σ
  | .teardown => { s with active := false }
  | .createResponse vars r =>
      if s.active then
        let out := promptCreatorStep env.stringifyNew env.createMsg s.cache vars r
        { s with cache := out.1, signals := s.signals ++ out.2 }
      else s
  | .updateResponse vars r =>
      if s.active then
        let out := promptUpdaterStep env.stringifyPrompt env.updateMsg s.cache vars r
        { s with cache := out.1, signals := s.signals ++ out.2 }
      else s
  | .deleteResponse vars r =>
      if s.active then
        let out := promptDeleterStep env.stringifyId env.deleteMsg s.cache vars r
        { s with cache := out.1, signals := s.signals ++ out.2 }
      else s
  | .settingResponse vars r =>
      if s.active then
        let out := upsertSettingStep env.settingSuccessMsg env.settingFailureMsg
          env.applySetting s.settings vars r
        { s with settings := out.1, signals := s.signals ++ out.2 }
      else s

/-- Run a list of view events from a state. -/
def viewRun {σ : Type} (env : ViewEnv σ) (s : ViewState σ)
    (evs : List ViewEvent) : ViewState σ :=
  evs.foldl (viewStep env) s

/-! ## Helper lemmas -/

/-- The update patch never changes the id sequence: it replaces the first
entry whose id equals the incoming id by an entry with that very id. -/
theorem updatePromptList_map_id (p : Prompt) (l : List Prompt) :
    (updatePromptList p l).map Prompt.id = l.map Prompt.id := by
  induction l with
  | nil => rfl
  | cons q rest ih =>
      by_cases h : q.id = p.id
      · simp [updatePromptList, h]
      · simp [updatePromptList, h, ih]

/-- A view state with a torn-down view absorbs any single event. -/
theorem viewStep_inactive {σ : Type} (env : ViewEnv σ) (s : ViewState σ)
    (ev : ViewEvent) (h : s.active = false) :
    viewStep env s ev = s := by
  cases ev with
  | teardown => cases s; simp_all [viewStep]
  | createResponse vars r => simp [viewStep, h]
  | updateResponse vars r => simp [viewStep, h]
  | deleteResponse vars r => simp [viewStep, h]
  | settingResponse vars r => simp [viewStep, h]

/-- A view state with a torn-down view absorbs any event trace. -/
theorem viewRun_inactive {σ : Type} (env : ViewEnv σ) (s : ViewState σ)
    (evs : List ViewEvent) (h : s.active = false) :
    viewRun env s evs = s := by
  induction evs generalizing s with
  | nil => rfl
  | cons ev rest ih =>
      have hstep := viewStep_inactive env s ev h
      simp [viewRun, List.foldl_cons] at ih ⊢
      rw [hstep]
      exact ih s h

/-! ## Claims -/

/-- C1: for every mutation (upsert setting, create prompt, update prompt,
delete prompt) whose gateway call fails, the entity cache is returned
exactly as it was (no patch is applied) and the emitted signals are a
diagnostic log entry carrying the operation name, the submitted payload and
the underlying error message, plus an error toast. -/
theorem failed_mutations_leave_cache_unchanged :
    ∀ {σ : Type} (stN : NewPrompt → String) (stP : Prompt → String)
      (stS : String → String) (sMsg fMsg : String) (applySuccess : σ → σ)
      (cache : PromptCache) (store : σ) (vN : NewPrompt) (vP : Prompt)
      (vid : String) (vS : SettingPayload) (e : GatewayError),
      promptCreatorStep stN sMsg cache vN (.error e)
        = (cache,
           [Signal.logError ("Failed to create prompt: data = " ++ stN vN
              ++ ", error = " ++ e.message),
            Signal.toastError ("Failed to create prompt: " ++ e.message)]) ∧
      promptUpdaterStep stP sMsg cache vP (.error e)
        = (cache,
           [Signal.logError ("Failed to update prompt: data = " ++ stP vP
              ++ ", error = " ++ e.message),
            Signal.toastError ("Failed to update prompt: " ++ e.message)]) ∧
      promptDeleterStep stS sMsg cache vid (.error e)
        = (cache,
           [Signal.logError ("Failed to delete prompt: data = " ++ stS vid
              ++ ", error = " ++ e.message),
            Signal.toastError ("Failed to delete prompt: " ++ e.message)]) ∧
      upsertSettingStep sMsg fMsg applySuccess store vS (.error e)
        = (store,
           [Signal.logError ("Upserting settings failed: key = " ++ vS.key
              ++ ", value = " ++ vS.value ++ ", " ++ e.message),
            Signal.toastError fMsg]) := by
  intros
  exact ⟨rfl, rfl, rfl, rfl⟩

/-- C2: every successful create-prompt operation grows the cached
collection by exactly one entry, also when the cache was empty or absent,
and the new collection contains an entry whose id is the id returned by the
gateway. -/
theorem successful_create_grows_cache_by_one :
    ∀ (stringify : NewPrompt → String) (sMsg : String) (cache : PromptCache)
      (v : NewPrompt) (p : Prompt),
      (promptCreatorStep stringify sMsg cache v (.ok p)).1
        = some (createPromptPatch p cache) ∧
      (createPromptPatch p cache).length = (cache.getD []).length + 1 ∧
      ∃ q ∈ createPromptPatch p cache, q.id = p.id := by
  intro stringify sMsg cache v p
  refine ⟨rfl, ?_, ?_⟩
  · cases cache <;> simp [createPromptPatch]
  · cases cache <;> exact ⟨p, by simp [createPromptPatch], rfl⟩

/-- C7: if the cached prompt collection has pairwise distinct ids and the
gateway returns a fresh id on create, then each of the three cache patches
(append on create, replace-by-id on update, remove-by-id on delete) yields
a collection with pairwise distinct ids. -/
theorem prompt_ids_unique_after_patches (c : PromptCache) (p : Prompt)
    (hnodup : (cacheIds c).Nodup) (hfresh : p.id ∉ cacheIds c) :
    ((createPromptPatch p c).map Prompt.id).Nodup ∧
    (cacheIds (updatePromptPatch p c)).Nodup ∧
    (cacheIds (deletePromptPatch p c)).Nodup := by
  cases c with
  | none => simp [createPromptPatch, updatePromptPatch, deletePromptPatch, cacheIds]
  | some l =>
      simp only [cacheIds, Option.getD_some] at hnodup hfresh
      refine ⟨?_, ?_, ?_⟩
      · simp [createPromptPatch, List.nodup_append, hnodup, hfresh]
      · simpa [updatePromptPatch, cacheIds, updatePromptList_map_id] using hnodup
      · have hsub : ((l.filter (fun q => q.id ≠ p.id)).map Prompt.id).Sublist
            (l.map Prompt.id) := (List.filter_sublist l).map Prompt.id
        exact hnodup.sublist hsub

/-- Witness for C7 at a concrete two-element cache and a fresh id. -/
theorem prompt_ids_unique_after_patches_witness :
    (cacheIds (some [⟨"a", "a", "a", "a"⟩, ⟨"b", "b", "b", "b"⟩])).Nodup ∧
    (⟨"c", "c", "c", "c"⟩ : Prompt).id
      ∉ cacheIds (some [⟨"a", "a", "a", "a"⟩, ⟨"b", "b", "b", "b"⟩]) ∧
    (((createPromptPatch ⟨"c", "c", "c", "c"⟩
        (some [⟨"a", "a", "a", "a"⟩, ⟨"b", "b", "b", "b"⟩])).map Prompt.id).Nodup ∧
      (cacheIds (updatePromptPatch ⟨"c", "c", "c", "c"⟩
        (some [⟨"a", "a", "a", "a"⟩, ⟨"b", "b", "b", "b"⟩]))).Nodup ∧
      (cacheIds (deletePromptPatch ⟨"c", "c", "c", "c"⟩
        (some [⟨"a", "a", "a", "a"⟩, ⟨"b", "b", "b", "b"⟩]))).Nodup) :=
  ⟨by decide, by decide,
   prompt_ids_unique_after_patches
     (some [⟨"a", "a", "a", "a"⟩, ⟨"b", "b", "b", "b"⟩]) ⟨"c", "c", "c", "c"⟩
     (by decide) (by decide)⟩

/-- C6: when the saved proxy setting is enabled and the watched form switch
is off, the auto-save effect fires an upsert of the proxy setting with the
serialized current form values (whose enabled flag is false); when the
saved setting is disabled (the false-to-true direction) or the switch is
on, no auto-save fires. -/
theorem proxy_toggle_off_autosaves (stringify : ProxySetting → String)
    (savedOn : Bool) (fv : ProxySetting) :
    (savedOn = true → fv.«on» = false →
      proxyAutoSaveEffect stringify savedOn fv
        = some { key := SETTING_NETWORK_PROXY, value := stringify fv }) ∧
    (savedOn = false → proxyAutoSaveEffect stringify savedOn fv = none) ∧
    (fv.«on» = true → proxyAutoSaveEffect stringify savedOn fv = none) := by
  refine ⟨?_, ?_, ?_⟩
  · intro h1 h2; simp [proxyAutoSaveEffect, h1, h2]
  · intro h1; simp [proxyAutoSaveEffect, h1]
  · intro h1; simp [proxyAutoSaveEffect, h1]

/-- Witness for C6: toggling off fires the auto-save, toggling on does not. -/
theorem proxy_toggle_off_autosaves_witness :
    proxyAutoSaveEffect (fun _ => "json") true
      ⟨false, "srv", true, true, "u", "p"⟩
      = some { key := SETTING_NETWORK_PROXY, value := "json" } ∧
    proxyAutoSaveEffect (fun _ => "json") false
      ⟨true, "srv", true, true, "u", "p"⟩ = none :=
  ⟨(proxy_toggle_off_autosaves (fun _ => "json") true
      ⟨false, "srv", true, true, "u", "p"⟩).1 rfl rfl,
   (proxy_toggle_off_autosaves (fun _ => "json") false
      ⟨true, "srv", true, true, "u", "p"⟩).2.1 rfl⟩

/-- C9: once the originating view is torn down, any further trace of
gateway responses — create-prompt, update-prompt, delete-prompt or
upsert-setting, successes and failures alike — leaves the prompt cache,
the settings store and the emitted signals exactly as they were: stale
responses are dropped silently, with no notification. -/
theorem stale_responses_dropped {σ : Type} (env : ViewEnv σ)
    (s : ViewState σ) (evs : List ViewEvent) :
    (viewRun env s (ViewEvent.teardown :: evs)).cache = s.cache ∧
    (viewRun env s (ViewEvent.teardown :: evs)).settings = s.settings ∧
    (viewRun env s (ViewEvent.teardown :: evs)).signals = s.signals ∧
    (viewRun env s (ViewEvent.teardown :: evs)).active = false := by
  have h1 : viewStep env s ViewEvent.teardown = { s with active := false } := rfl
  have h2 : viewRun env s (ViewEvent.teardown :: evs)
      = viewRun env { s with active := false } evs := by
    simp [viewRun, List.foldl_cons, h1]
  rw [h2, viewRun_inactive env { s with active := false } evs rfl]
  exact ⟨rfl, rfl, rfl, rfl⟩

/-- C10: a load-models click with an empty apiKey form value sets a field
error on the apiKey field and leaves the query-enabling flag untouched (in
particular a disabled fetch stays disabled, so no listRemoteModels call
becomes possible); a click with a non-empty apiKey enables the fetch; and a
click enables a previously disabled fetch exactly when the apiKey is
non-empty. -/
theorem load_models_click_requires_api_key (msg key : String) (enabled : Bool) :
    (key.length = 0 →
      loadModelsOnClick msg key enabled
        = { enabled := enabled, apiKeyError := some msg }) ∧
    (key.length ≠ 0 →
      loadModelsOnClick msg key enabled
        = { enabled := true, apiKeyError := none }) ∧
    (enabled = false →
      ((loadModelsOnClick msg key enabled).enabled = true ↔ key.length ≠ 0)) := by
  refine ⟨?_, ?_, ?_⟩
  · intro h; simp [loadModelsOnClick, h]
  · intro h; simp [loadModelsOnClick, h]
  · intro h
    by_cases hk : key.length = 0
    · simp [loadModelsOnClick, hk, h]
    · simp [loadModelsOnClick, hk]

/-- Witness for C10: empty key yields an error and no enabling, non-empty
key enables the fetch. -/
theorem load_models_click_requires_api_key_witness :
    loadModelsOnClick "empty-api-key" "" false
      = { enabled := false, apiKeyError := some "empty-api-key" } ∧
    loadModelsOnClick "empty-api-key" "sk-1" false
      = { enabled := true, apiKeyError := none } :=
  ⟨(load_models_click_requires_api_key "empty-api-key" "" false).1 rfl,
   (load_models_click_requires_api_key "empty-api-key" "sk-1" false).2.1
     (by decide)⟩

/-- C5: a credentials change clears the cached remote-model list at once
(before any later fetch event can be observed), and along any event trace
the cache only ever holds a list fetched under the current credentials, so
a list fetched under one provider and apiKey pair is never served after
either has changed. -/
theorem creds_change_invalidates_model_cache (s : SelectorState) (c : Creds)
    (evs : List SelectorEvent) :
    (c ≠ s.creds → (selectorStep s (SelectorEvent.changeCreds c)).cached = none) ∧
    (credsConsistent s → credsConsistent (selectorRun s evs)) := by
  constructor
  · intro h
    simp [selectorStep, h]
  · intro hcons
    induction evs generalizing s with
    | nil => exact hcons
    | cons ev rest ih =>
        have hstep : credsConsistent (selectorStep s ev) := by
          cases ev with
          | changeCreds c₂ =>
              by_cases hc : c₂ = s.creds
              · simpa [selectorStep, hc] using hcons
              · intro cl hcl; simp [selectorStep, hc] at hcl
          | fetchComplete l =>
              intro cl hcl
              simp [selectorStep] at hcl
              simp [selectorStep, ← hcl]
        simpa [selectorRun, List.foldl_cons] using ih (selectorStep s ev) hstep

/-- Witness for C5: after a fetch under one apiKey and a change to another,
the cache is empty, and a concrete run keeps the consistency invariant. -/
theorem creds_change_invalidates_model_cache_witness :
    ((⟨"OpenAI", "B"⟩ : Creds) ≠ (⟨"OpenAI", "A"⟩ : Creds)) ∧
    (selectorStep ⟨⟨"OpenAI", "A"⟩, some ⟨⟨"OpenAI", "A"⟩, [⟨"m1", 100⟩]⟩⟩
      (SelectorEvent.changeCreds ⟨"OpenAI", "B"⟩)).cached = none ∧
    credsConsistent (selectorRun ⟨⟨"OpenAI", "A"⟩, none⟩
      [SelectorEvent.fetchComplete [⟨"m1", 100⟩],
       SelectorEvent.changeCreds ⟨"OpenAI", "B"⟩]) :=
  ⟨by decide,
   (creds_change_invalidates_model_cache
      ⟨⟨"OpenAI", "A"⟩, some ⟨⟨"OpenAI", "A"⟩, [⟨"m1", 100⟩]⟩⟩
      ⟨"OpenAI", "B"⟩ []).1 (by decide),
   (creds_change_invalidates_model_cache ⟨⟨"OpenAI", "A"⟩, none⟩
      ⟨"OpenAI", "B"⟩
      [SelectorEvent.fetchComplete [⟨"m1", 100⟩],
       SelectorEvent.changeCreds ⟨"OpenAI", "B"⟩]).2
     (fun cl hcl => by simp at hcl)⟩

/-! ## C3: numeric validation -/

/-- The coerced input is an integer within the given bounds. -/
def coercesToIntIn (lo hi : ℤ) (c : Option ℚ) : Prop :=
  ∃ n : ℤ, c = some (n : ℚ) ∧ lo ≤ n ∧ n ≤ hi

/-- The zod chain succeeds exactly on integers within bounds. -/
theorem zodCoerceIntMinMax_isSome_iff (lo hi : ℤ) (c : Option ℚ) :
    (zodCoerceIntMinMax lo hi c).isSome = true ↔ coercesToIntIn lo hi c := by
  cases c with
  | none =>
      simp [zodCoerceIntMinMax, coercesToIntIn]
  | some q =>
      constructor
      · intro h
        have hq : q.den = 1 ∧ lo ≤ q.num ∧ q.num ≤ hi := by
          by_contra hq
          simp [zodCoerceIntMinMax, hq] at h
        refine ⟨q.num, ?_, hq.2.1, hq.2.2⟩
        rw [(Rat.den_eq_one_iff q).mp hq.1]
      · rintro ⟨n, hn, h1, h2⟩
        have hq : q = (n : ℚ) := Option.some.inj hn
        subst hq
        simp [zodCoerceIntMinMax, Rat.den_intCast, Rat.num_intCast, h1, h2]

/-- On an integer within bounds the zod chain returns that integer. -/
theorem zodCoerceIntMinMax_eq_some (lo hi n : ℤ) (h1 : lo ≤ n) (h2 : n ≤ hi) :
    zodCoerceIntMinMax lo hi (some (n : ℚ)) = some n := by
  simp [zodCoerceIntMinMax, Rat.den_intCast, Rat.num_intCast, h1, h2]

/-- C3: a context-length save forwards a payload to the upsert mutation
exactly when the coerced input is an integer in [0, 65535], a max-tokens
save exactly when it is an integer in [1, 65535]; on an in-range integer
the forwarded payload is the setting key with the integer rendered back to
a string and no field error; on any other input the field error is set and
no mutation payload is produced. -/
theorem numeric_settings_validation (msg : String) (c : Option ℚ) :
    ((contextLengthOnSaveClick msg c).upsert.isSome = true
      ↔ coercesToIntIn 0 65535 c) ∧
    (∀ n : ℤ, c = some (n : ℚ) → 0 ≤ n → n ≤ 65535 →
      contextLengthOnSaveClick msg c
        = { fieldError := none
            upsert := some { key := SETTING_MODELS_CONTEXT_LENGTH
                             value := toString n } }) ∧
    (¬ coercesToIntIn 0 65535 c →
      contextLengthOnSaveClick msg c = { fieldError := some msg, upsert := none }) ∧
    ((maxTokensOnSaveClick msg c).upsert.isSome = true
      ↔ coercesToIntIn 1 65535 c) ∧
    (∀ n : ℤ, c = some (n : ℚ) → 1 ≤ n → n ≤ 65535 →
      maxTokensOnSaveClick msg c
        = { fieldError := none
            upsert := some { key := SETTING_MODELS_MAX_TOKENS
                             value := toString n } }) ∧
    (¬ coercesToIntIn 1 65535 c →
      maxTokensOnSaveClick msg c = { fieldError := some msg, upsert := none }) := by
  refine ⟨?_, ?_, ?_, ?_, ?_, ?_⟩
  · rw [← zodCoerceIntMinMax_isSome_iff]
    cases hz : zodCoerceIntMinMax 0 65535 c <;>
      simp [contextLengthOnSaveClick, hz]
  · intro n hn h1 h2
    subst hn
    simp [contextLengthOnSaveClick, zodCoerceIntMinMax_eq_some 0 65535 n h1 h2]
  · intro h
    rw [← zodCoerceIntMinMax_isSome_iff] at h
    cases hz : zodCoerceIntMinMax 0 65535 c with
    | none => simp [contextLengthOnSaveClick, hz]
    | some n => simp [hz] at h
  · rw [← zodCoerceIntMinMax_isSome_iff]
    cases hz : zodCoerceIntMinMax 1 65535 c <;>
      simp [maxTokensOnSaveClick, hz]
  · intro n hn h1 h2
    subst hn
    simp [maxTokensOnSaveClick, zodCoerceIntMinMax_eq_some 1 65535 n h1 h2]
  · intro h
    rw [← zodCoerceIntMinMax_isSome_iff] at h
    cases hz : zodCoerceIntMinMax 1 65535 c with
    | none => simp [maxTokensOnSaveClick, hz]
    | some n => simp [hz] at h

/-- Witness for C3: input 5 is accepted for the context length, input
100000 is rejected (above 65535), and input 0 is rejected for max tokens
(below 1). -/
theorem numeric_settings_validation_witness :
    (contextLengthOnSaveClick "err" (some (5 : ℚ))).upsert.isSome = true ∧
    contextLengthOnSaveClick "err" (some (100000 : ℚ))
      = { fieldError := some "err", upsert := none } ∧
    maxTokensOnSaveClick "err" (some (0 : ℚ))
      = { fieldError := some "err", upsert := none } := by
  refine ⟨?_, ?_, ?_⟩
  · exact (numeric_settings_validation "err" (some (5 : ℚ))).1.mpr
      ⟨5, by norm_num, by norm_num, by norm_num⟩
  · refine (numeric_settings_validation "err" (some (100000 : ℚ))).2.2.1 ?_
    rintro ⟨n, hn, _, h2⟩
    have hq : (100000 : ℚ) = (n : ℚ) := Option.some.inj hn
    have : (100000 : ℤ) = n := by exact_mod_cast hq
    omega
  · refine (numeric_settings_validation "err" (some (0 : ℚ))).2.2.2.2.2 ?_
    rintro ⟨n, hn, h1, _⟩
    have hq : (0 : ℚ) = (n : ℚ) := Option.some.inj hn
    have : (0 : ℤ) = n := by exact_mod_cast hq
    omega

/-! ## C4: remote model list sorted descending, first entry preselected -/

/-- C4: the displayed list is a permutation of the fetched list sorted by
`created` descending, and when the form model field is unset or empty the
default-selection effect sets it to the id of the first entry of the
sorted list. -/
theorem remote_models_sorted_and_preselected (l : List RemoteModel)
    (fv : Option String) (hne : l ≠ []) (hempty : fv.getD "" = "") :
    (selectRemoteModels l).Perm l ∧
    (selectRemoteModels l).Pairwise (fun a b => b.created ≤ a.created) ∧
    defaultSelectionEffect (some (selectRemoteModels l)) fv
      = (selectRemoteModels l).head?.map RemoteModel.id ∧
    ((selectRemoteModels l).head?.map RemoteModel.id).isSome = true := by
  have hperm : (selectRemoteModels l).Perm l := List.mergeSort_perm l _
  have hsorted : (selectRemoteModels l).Pairwise
      (fun a b => b.created ≤ a.created) := by
    have h := @List.sorted_mergeSort RemoteModel
      (fun a b : RemoteModel => decide (b.created ≤ a.created))
      (fun a b c hab hbc => by
        simp only [decide_eq_true_eq] at hab hbc ⊢
        omega)
      (fun a b => by
        simp only [Bool.or_eq_true, decide_eq_true_eq]
        omega)
      l
    exact h.imp (fun h => by simpa using h)
  have hne₂ : selectRemoteModels l ≠ [] := by
    intro h
    have hlen := hperm.length_eq
    rw [h] at hlen
    exact hne (List.length_eq_zero.mp hlen.symm)
  refine ⟨hperm, hsorted, ?_, ?_⟩
  · cases hsel : selectRemoteModels l with
    | nil => exact absurd hsel hne₂
    | cons m rest => simp [defaultSelectionEffect, hempty]
  · cases hsel : selectRemoteModels l with
    | nil => exact absurd hsel hne₂
    | cons m rest => simp

/-- Witness for C4, the scenario of the spec: the fetched list
`[{id: m1, created: 100}, {id: m2, created: 200}]` is displayed as
`[m2, m1]` and `m2` is preselected. -/
theorem remote_models_sorted_and_preselected_witness :
    selectRemoteModels [⟨"m1", 100⟩, ⟨"m2", 200⟩] = [⟨"m2", 200⟩, ⟨"m1", 100⟩] ∧
    defaultSelectionEffect
      (some (selectRemoteModels [⟨"m1", 100⟩, ⟨"m2", 200⟩])) none = some "m2" := by
  have hsel : selectRemoteModels [⟨"m1", 100⟩, ⟨"m2", 200⟩]
      = [⟨"m2", 200⟩, ⟨"m1", 100⟩] := by
    simp [selectRemoteModels, List.mergeSort, List.merge]
  refine ⟨hsel, ?_⟩
  have h := (remote_models_sorted_and_preselected [⟨"m1", 100⟩, ⟨"m2", 200⟩]
    none (by simp) rfl).2.2.1
  rw [h, hsel]
  rfl

/-! ## C8: provider tag determines the required field set -/

/-- A present field of the raw configuration can be read back. -/
theorem getField_isSome_iff (cfg : RawModelConfig) (f : ModelField) :
    (getField cfg f).isSome = true ↔ f ∈ cfg.fields.map Prod.fst := by
  unfold getField
  cases hf : cfg.fields.find? (fun kv => kv.1 = f) with
  | none =>
      rw [List.find?_eq_none] at hf
      refine iff_of_false (by simp) ?_
      intro hmem
      obtain ⟨kv, hkv, hfe⟩ := List.mem_map.mp hmem
      have hne := hf kv hkv
      simp at hne
      exact hne hfe
  | some kv =>
      have h1 : kv.1 = f := by simpa using List.find?_some hf
      have h2 : kv ∈ cfg.fields := List.mem_of_find?_eq_some hf
      exact iff_of_true (by simp) (List.mem_map.mpr ⟨kv, h2, h1⟩)

/-- With a field outside the required set, validation fails. -/
theorem validateModelConfig_extra (cfg : RawModelConfig)
    (hall : ¬ (cfg.fields.all
      (fun kv => (requiredFields cfg.provider).contains kv.1)) = true) :
    validateModelConfig cfg = none := by
  unfold validateModelConfig
  rw [if_neg hall]

/-- Reduction of validation under the OpenAI tag. -/
theorem validateModelConfig_openAI (cfg : RawModelConfig)
    (hall : (cfg.fields.all
      (fun kv => (requiredFields cfg.provider).contains kv.1)) = true)
    (hp : cfg.provider = Provider.openAI) :
    validateModelConfig cfg
      = match getField cfg ModelField.apiKey, getField cfg ModelField.model with
        | some k, some m => some (NewModel.openAI k m)
        | _, _ => none := by
  unfold validateModelConfig
  rw [if_pos hall, hp]

/-- Reduction of validation under the Azure tag. -/
theorem validateModelConfig_azure (cfg : RawModelConfig)
    (hall : (cfg.fields.all
      (fun kv => (requiredFields cfg.provider).contains kv.1)) = true)
    (hp : cfg.provider = Provider.azure) :
    validateModelConfig cfg
      = match getField cfg ModelField.apiKey, getField cfg ModelField.endpoint,
              getField cfg ModelField.apiVersion,
              getField cfg ModelField.deploymentId with
        | some k, some e, some v, some d => some (NewModel.azure k e v d)
        | _, _, _, _ => none := by
  unfold validateModelConfig
  rw [if_pos hall, hp]

/-- A two-option match used by validation is defined exactly when both
options are. -/
theorem matchTwo_isSome (o1 o2 : Option String) :
    (match o1, o2 with
     | some k, some m => some (NewModel.openAI k m)
     | _, _ => none).isSome = (o1.isSome && o2.isSome) := by
  cases o1 <;> cases o2 <;> rfl

/-- A four-option match used by validation is defined exactly when all four
options are. -/
theorem matchFour_isSome (o1 o2 o3 o4 : Option String) :
    (match o1, o2, o3, o4 with
     | some k, some e, some v, some d => some (NewModel.azure k e v d)
     | _, _, _, _ => none).isSome
      = (o1.isSome && o2.isSome && o3.isSome && o4.isSome) := by
  cases o1 <;> cases o2 <;> cases o3 <;> cases o4 <;> rfl

/-- C8: validation of a raw model configuration succeeds exactly when its
present field set coincides with the required field set of its declared
provider tag (OpenAI: apiKey and model; Azure: apiKey, endpoint,
apiVersion and deploymentId); a validated value always carries its
declared provider tag and exactly that field set; and the new-model form
dialog seeds, for each provider tag, an initial model whose field set is
the one required by that tag. -/
theorem provider_tag_determines_required_fields (cfg : RawModelConfig) :
    ((validateModelConfig cfg).isSome = true ↔
      ∀ f : ModelField,
        f ∈ cfg.fields.map Prod.fst ↔ f ∈ requiredFields cfg.provider) ∧
    (∀ m, validateModelConfig cfg = some m →
      newModelProvider m = cfg.provider ∧
      newModelFields m = requiredFields cfg.provider) ∧
    newModelProvider (renderFormInitialModel (some PROVIDER_OPENAI))
      = Provider.openAI ∧
    (∀ pTag : Option String, pTag ≠ some PROVIDER_OPENAI →
      newModelProvider (renderFormInitialModel pTag) = Provider.azure) ∧
    (∀ pTag : Option String,
      newModelFields (renderFormInitialModel pTag)
        = requiredFields (newModelProvider (renderFormInitialModel pTag))) := by
  refine ⟨?_, ?_, ?_, ?_, ?_⟩
  · constructor
    · intro h f
      by_cases hall : (cfg.fields.all
          (fun kv => (requiredFields cfg.provider).contains kv.1)) = true
      · have hmem : ∀ kv ∈ cfg.fields, kv.1 ∈ requiredFields cfg.provider := by
          intro kv hkv
          have hc := List.all_eq_true.mp hall kv hkv
          simpa [List.contains] using hc
        constructor
        · intro hf
          obtain ⟨kv, hkv, hfe⟩ := List.mem_map.mp hf
          exact hfe ▸ hmem kv hkv
        · intro hf
          rw [← getField_isSome_iff]
          cases hp : cfg.provider with
          | openAI =>
              rw [validateModelConfig_openAI cfg hall hp, matchTwo_isSome,
                Bool.and_eq_true] at h
              rw [hp] at hf
              fin_cases hf
              · exact h.1
              · exact h.2
          | azure =>
              rw [validateModelConfig_azure cfg hall hp, matchFour_isSome,
                Bool.and_eq_true, Bool.and_eq_true, Bool.and_eq_true] at h
              rw [hp] at hf
              fin_cases hf
              · exact h.1.1.1
              · exact h.1.1.2
              · exact h.1.2
              · exact h.2
      · rw [validateModelConfig_extra cfg hall] at h
        simp at h
    · intro hiff
      have hall : (cfg.fields.all
          (fun kv => (requiredFields cfg.provider).contains kv.1)) = true := by
        rw [List.all_eq_true]
        intro kv hkv
        have hm : kv.1 ∈ cfg.fields.map Prod.fst :=
          List.mem_map.mpr ⟨kv, hkv, rfl⟩
        simpa [List.contains] using (hiff kv.1).mp hm
      cases hp : cfg.provider with
      | openAI =>
          rw [validateModelConfig_openAI cfg hall hp, matchTwo_isSome,
            Bool.and_eq_true]
          constructor <;> rw [getField_isSome_iff] <;> refine (hiff _).mpr ?_ <;>
            rw [hp] <;> simp [requiredFields]
      | azure =>
          rw [validateModelConfig_azure cfg hall hp, matchFour_isSome,
            Bool.and_eq_true, Bool.and_eq_true, Bool.and_eq_true]
          refine ⟨⟨⟨?_, ?_⟩, ?_⟩, ?_⟩ <;> rw [getField_isSome_iff] <;>
            refine (hiff _).mpr ?_ <;> rw [hp] <;> simp [requiredFields]
  · intro m hm
    by_cases hall : (cfg.fields.all
        (fun kv => (requiredFields cfg.provider).contains kv.1)) = true
    · cases hp : cfg.provider with
      | openAI =>
          rw [validateModelConfig_openAI cfg hall hp] at hm
          cases hk : getField cfg ModelField.apiKey with
          | none => simp [hk] at hm
          | some k =>
              cases hmo : getField cfg ModelField.model with
              | none => simp [hk, hmo] at hm
              | some mo =>
                  simp [hk, hmo] at hm
                  rw [← hm]
                  exact ⟨rfl, rfl⟩
      | azure =>
          rw [validateModelConfig_azure cfg hall hp] at hm
          cases hk : getField cfg ModelField.apiKey with
          | none => simp [hk] at hm
          | some k =>
              cases he : getField cfg ModelField.endpoint with
              | none => simp [hk, he] at hm
              | some e =>
                  cases hv : getField cfg ModelField.apiVersion with
                  | none => simp [hk, he, hv] at hm
                  | some v =>
                      cases hd : getField cfg ModelField.deploymentId with
                      | none => simp [hk, he, hv, hd] at hm
                      | some d =>
                          simp [hk, he, hv, hd] at hm
                          rw [← hm]
                          exact ⟨rfl, rfl⟩
    · rw [validateModelConfig_extra cfg hall] at hm
      exact Option.noConfusion hm
  · simp [renderFormInitialModel, newModelProvider]
  · intro pTag h
    simp [renderFormInitialModel, h, newModelProvider]
  · intro pTag
    by_cases h : pTag = some PROVIDER_OPENAI <;>
      simp [renderFormInitialModel, h, newModelProvider, newModelFields,
        requiredFields]

/-- Witness for C8: a configuration with exactly apiKey and model under the
OpenAI tag validates, and so does the dialog seeding. -/
theorem provider_tag_determines_required_fields_witness :
    (validateModelConfig
      ⟨Provider.openAI,
        [(ModelField.apiKey, "sk"), (ModelField.model, "gpt")]⟩).isSome = true ∧
    validateModelConfig
      ⟨Provider.openAI, [(ModelField.apiKey, "sk")]⟩ = none :=
  ⟨(provider_tag_determines_required_fields
      ⟨Provider.openAI,
        [(ModelField.apiKey, "sk"), (ModelField.model, "gpt")]⟩).1.mpr
      (fun f => by cases f <;> simp [requiredFields]),
   by decide⟩

end Kaas
